import Mathlib

/-!
# CarbonLens prediction service — verified model

Shallow embedding of the prediction-serving core of the `carbonlens`
repository (`backend/app/predictor.py`, `backend/app/models.py`,
`backend/app/main.py`, `backend/app/config.py`).

Modelling conventions:
* Python 64-bit floats are modelled as exact rationals (`ℚ`); the claims
  under study are exact identities (pass-through, division by 1000, sums,
  decimal rounding) and are settled in that exact arithmetic.
* The pandas `DataFrame` is a list of column names plus a list of rows,
  each row a list of cells (a cell is a string or a number), in column
  order.
* The serialized ML artifact is opaque: any function from a `DataFrame`
  to either a list of predictions or a raised exception (its message).
* Each predictor operation also returns the list of `DataFrame`s it passed
  to `model.predict`, so "the artifact is invoked exactly once" is a
  provable statement rather than a remark about the code's shape.
* `round(x, n)` (Python 3) is decimal round-half-to-even at `n` digits.
-/

namespace CarbonLens

/-- A pandas cell: either a string (categorical column) or a number. -/
abbrev Cell := String ⊕ ℚ

/-- A pandas `DataFrame`: named columns and rows listed in column order. -/
structure DataFrame where
  columns : List String
  rows : List (List Cell)
deriving DecidableEq

/-- The opaque serialized artifact (`joblib` pickle): `model.predict`
takes a `DataFrame` and either returns the prediction list or raises an
exception carrying a message. -/
abbrev Model := DataFrame → Except String (List ℚ)

/-- `app/config.py`: `API_VERSION = "1.0.0"`. -/
def API_VERSION : String := "1.0.0"

/-- `app/models.py` `PredictionRequest` after successful pydantic
validation: the four route-descriptor fields, strings already stripped
by the field validators. -/
structure PredictionRequest where
  origin_facility : String
  vehicle_type : String
  route_type : String
  distance_km : ℚ
deriving DecidableEq

/-- Python `str.strip()`: drop leading and trailing whitespace. -/
def strip (s : String) : String :=
  ⟨((s.data.dropWhile Char.isWhitespace).reverse.dropWhile
      Char.isWhitespace).reverse⟩

/-- `app/models.py` `PredictionRequest` boundary validation. Pydantic
accepts the payload iff `origin_facility` satisfies `min_length=1`
(checked on the raw string, before the `after`-mode field validators
strip it) and `distance_km` satisfies `gt=0`; `vehicle_type` and
`route_type` carry no length constraint. On acceptance the three string
fields are stripped by the `clean_strings` / `validate_origin`
validators. -/
def mkPredictionRequest (origin vehicle route : String) (dist : ℚ) :
    Option PredictionRequest :=
  if 1 ≤ origin.length ∧ 0 < dist then
    some { origin_facility := strip origin
         , vehicle_type := strip vehicle
         , route_type := strip route
         , distance_km := dist }
  else
    none

/-- `app/models.py` `BatchPredictionRequest` boundary validation:
`predictions` has `min_length=1`, `max_length=100`. -/
def mkBatchPredictionRequest (preds : List PredictionRequest) :
    Option (List PredictionRequest) :=
  if 1 ≤ preds.length ∧ preds.length ≤ 100 then some preds else none

/-- The row built for one request, cells in the fixed column order
`[origin_facility, vehicle_type, route_type, distance_km]`. -/
def requestRow (r : PredictionRequest) : List Cell :=
  [Sum.inl r.origin_facility, Sum.inl r.vehicle_type,
   Sum.inl r.route_type, Sum.inr r.distance_km]

/-- The fixed column order of the tabular input
(`predictor.py`, both `predict_single` and `predict_batch`). -/
def columnOrder : List String :=
  ["origin_facility", "vehicle_type", "route_type", "distance_km"]

/-- `predict_single`'s `input_df`: a one-row `DataFrame` with the fixed
column order (`pd.DataFrame({"origin_facility": [...], ...})`). -/
def singleInputDF (r : PredictionRequest) : DataFrame :=
  { columns := columnOrder, rows := [requestRow r] }

/-- `predict_batch`'s `input_df`: `pd.DataFrame([{...} for req in requests])`,
one row per request in input order.  (pandas yields a column-less empty
frame when the request list is empty.) -/
def batchInputDF (rs : List PredictionRequest) : DataFrame :=
  { columns := if rs.isEmpty then [] else columnOrder
  , rows := rs.map requestRow }

/-- The exceptions `predictor.py` raises from the predict methods:
`RuntimeError("Model not loaded")`, or whatever the artifact raised. -/
inductive PredictorError where
  | modelNotLoaded : PredictorError
  | artifactFailure (msg : String) : PredictorError
deriving DecidableEq

/-- `str(e)` of a predictor exception, as interpolated by `main.py`. -/
def PredictorError.message : PredictorError → String
  | .modelNotLoaded => "Model not loaded"
  | .artifactFailure msg => msg

/-- `predictor.py` `CarbonEmissionPredictor` state: `self.model`,
`None` until a successful `load_model`. -/
structure CarbonEmissionPredictor where
  model : Option Model

/-- `CarbonEmissionPredictor.is_loaded`: `self.model is not None`. -/
def is_loaded (p : CarbonEmissionPredictor) : Bool :=
  p.model.isSome

/-- `CarbonEmissionPredictor.load_model`, with the outcome of
`joblib.load(self.model_path)` (external I/O) supplied as a parameter.
On success `self.model` is set; on failure `self.model` is left as it
was and `RuntimeError(f"Could not load model: {e}")` is raised. -/
def load_model (p : CarbonEmissionPredictor) (loadResult : Except String Model) :
    CarbonEmissionPredictor × Except String Unit :=
  match loadResult with
  | .error e => (p, .error ("Could not load model: " ++ e))
  | .ok m => ({ p with model := some m }, .ok ())

/-- `CarbonEmissionPredictor.__init__`: sets `self.model = None`, then
calls `self.load_model()`; a load failure propagates out of the
constructor, so no instance is produced. -/
def CarbonEmissionPredictor.init (loadResult : Except String Model) :
    Except String CarbonEmissionPredictor :=
  match load_model { model := none } loadResult with
  | (p1, .ok _) => .ok p1
  | (_, .error e) => .error e

/-- `CarbonEmissionPredictor.predict_single`, instrumented: the second
component lists every `DataFrame` passed to `model.predict`.  Raises
`RuntimeError("Model not loaded")` when `self.model is None`; otherwise
builds the one-row frame, invokes the artifact once, and returns
`float(prediction[0])` (an empty prediction array would make the `[0]`
indexing raise an `IndexError`). -/
def predict_singleT (p : CarbonEmissionPredictor) (request : PredictionRequest) :
    Except PredictorError ℚ × List DataFrame :=
  match p.model with
  | none => (.error .modelNotLoaded, [])
  | some m =>
      let input_df := singleInputDF request
      ( match m input_df with
        | .error msg => .error (.artifactFailure msg)
        | .ok [] =>
            .error (.artifactFailure "index 0 is out of bounds for axis 0 with size 0")
        | .ok (v :: _) => .ok v
      , [input_df] )

/-- `CarbonEmissionPredictor.predict_single` (result only). -/
def predict_single (p : CarbonEmissionPredictor) (request : PredictionRequest) :
    Except PredictorError ℚ :=
  (predict_singleT p request).1

/-- `CarbonEmissionPredictor.predict_batch`, instrumented like
`predict_singleT`: builds one multi-row frame from all requests in
order and invokes the artifact once; `[float(pred) for pred in
predictions]` returns the artifact's output list unchanged. -/
def predict_batchT (p : CarbonEmissionPredictor) (requests : List PredictionRequest) :
    Except PredictorError (List ℚ) × List DataFrame :=
  match p.model with
  | none => (.error .modelNotLoaded, [])
  | some m =>
      let input_df := batchInputDF requests
      ( match m input_df with
        | .error msg => .error (.artifactFailure msg)
        | .ok preds => .ok preds
      , [input_df] )

/-- `CarbonEmissionPredictor.predict_batch` (result only). -/
def predict_batch (p : CarbonEmissionPredictor) (requests : List PredictionRequest) :
    Except PredictorError (List ℚ) :=
  (predict_batchT p requests).1

/-- Decimal round-half-to-even to an integer (Python 3 `round` on an
exact value). -/
def roundHalfEven (q : ℚ) : ℤ :=
  let f := ⌊q⌋
  let frac := q - f
  if frac < 1 / 2 then f
  else if 1 / 2 < frac then f + 1
  else if f % 2 = 0 then f else f + 1

/-- Python `round(x, 2)`. -/
def round2 (q : ℚ) : ℚ := roundHalfEven (q * 100) / 100

/-- Python `round(x, 4)`. -/
def round4 (q : ℚ) : ℚ := roundHalfEven (q * 10000) / 10000

/-- The errors a route handler can surface: a pydantic boundary
rejection (HTTP 422) or an `HTTPException(500, detail=...)`. -/
inductive HTTPError where
  | clientError (detail : String)
  | serverError (detail : String)
deriving DecidableEq

/-- `app/models.py` `PredictionResponse`. -/
structure PredictionResponse where
  predicted_emission_kgco2e : ℚ
  predicted_emission_tons : ℚ
  input_data : PredictionRequest
  model_version : String
deriving DecidableEq

/-- `app/models.py` `BatchPredictionResponse`. -/
structure BatchPredictionResponse where
  results : List PredictionResponse
  total_count : ℕ
  total_emission_kgco2e : ℚ
  total_emission_tons : ℚ
deriving DecidableEq

/-- `main.py` `predict_emission` (`POST /predict`): runs
`predictor.predict_single`, derives `emission_tons = emission_kg / 1000`,
and answers with the kg value rounded to 2 decimals and the tons value
rounded to 4; any exception becomes
`HTTPException(500, detail=f"Prediction failed: {str(e)}")`. -/
def predict_emission (p : CarbonEmissionPredictor) (request : PredictionRequest) :
    Except HTTPError PredictionResponse :=
  match predict_single p request with
  | .error e => .error (.serverError ("Prediction failed: " ++ e.message))
  | .ok emission_kg =>
      let emission_tons := emission_kg / 1000
      .ok { predicted_emission_kgco2e := round2 emission_kg
          , predicted_emission_tons := round4 emission_tons
          , input_data := request
          , model_version := API_VERSION }

/-- `main.py` `predict_emissions_batch` (`POST /predict/batch`),
instrumented with the artifact-invocation trace of `predict_batchT`:
zips requests with predictions, accumulates `total_emission_kg` over the
zip, derives `total_emission_tons = total_emission_kg / 1000`, rounds
for presentation; any exception becomes
`HTTPException(500, detail=f"Batch prediction failed: {str(e)}")`. -/
def predict_emissions_batchT (p : CarbonEmissionPredictor)
    (reqs : List PredictionRequest) :
    Except HTTPError BatchPredictionResponse × List DataFrame :=
  match predict_batchT p reqs with
  | (.error e, tr) =>
      (.error (.serverError ("Batch prediction failed: " ++ e.message)), tr)
  | (.ok emissions_kg, tr) =>
      let pairs := reqs.zip emissions_kg
      let results := pairs.map fun pr =>
        { predicted_emission_kgco2e := round2 pr.2
        , predicted_emission_tons := round4 (pr.2 / 1000)
        , input_data := pr.1
        , model_version := API_VERSION : PredictionResponse }
      let total_emission_kg := pairs.foldl (fun acc pr => acc + pr.2) 0
      let total_emission_tons := total_emission_kg / 1000
      ( .ok { results := results
            , total_count := results.length
            , total_emission_kgco2e := round2 total_emission_kg
            , total_emission_tons := round4 total_emission_tons }
      , tr )

/-- `main.py` `predict_emissions_batch` (result only). -/
def predict_emissions_batch (p : CarbonEmissionPredictor)
    (reqs : List PredictionRequest) :
    Except HTTPError BatchPredictionResponse :=
  (predict_emissions_batchT p reqs).1

/-- The `/predict/batch` route including the boundary: FastAPI first
runs the `BatchPredictionRequest` validation and answers 422 without
calling the handler when it fails. -/
def handle_predict_batchT (p : CarbonEmissionPredictor)
    (raw : List PredictionRequest) :
    Except HTTPError BatchPredictionResponse × List DataFrame :=
  match mkBatchPredictionRequest raw with
  | none => (.error (.clientError "request validation failed"), [])
  | some reqs => predict_emissions_batchT p reqs

/-- An artifact that computes each prediction from its row alone, as an
sklearn-style estimator does, on any frame with the expected columns:
the mathematical content of "a loaded deterministic artifact". -/
def RowwiseModel (m : Model) (f : List Cell → ℚ) : Prop :=
  ∀ df : DataFrame, df.columns = columnOrder → m df = .ok (df.rows.map f)

/-! ### Concrete data for witnesses -/

/-- The spec's worked example request. -/
def demoReq : PredictionRequest :=
  { origin_facility := "WH_Bangalore", vehicle_type := "truck"
  , route_type := "highway", distance_km := 350 }

/-- A concrete per-row prediction function: twice the distance cell. -/
def demoRowFn : List Cell → ℚ
  | [_, _, _, Sum.inr d] => 2 * d
  | _ => 0

/-- A concrete deterministic artifact computing `demoRowFn` on each row. -/
def demoModel : Model := fun df => .ok (df.rows.map demoRowFn)

/-- An artifact whose `predict` always raises, with message `"boom"`
(e.g. a category never seen during training). -/
def boomModel : Model := fun _ => .error "boom"

/-! ### Claims -/

/-- C1: with the artifact loaded, `predict_single` builds exactly one
single-row `DataFrame` whose columns are, in order,
`[origin_facility, vehicle_type, route_type, distance_km]`, invokes the
artifact exactly once on it, and returns the artifact's first predicted
value unmodified (no clamping); `predict_emission` derives the tons
figure from exactly that value divided by 1000 (numbers modelled as
exact rationals). -/
theorem predict_single_passthrough
    (p : CarbonEmissionPredictor) (m : Model) (r : PredictionRequest)
    (v : ℚ) (ks : List ℚ)
    (hm : p.model = some m)
    (hv : m (singleInputDF r) = .ok (v :: ks)) :
    singleInputDF r
      = { columns := ["origin_facility", "vehicle_type",
                      "route_type", "distance_km"]
        , rows := [[Sum.inl r.origin_facility, Sum.inl r.vehicle_type,
                    Sum.inl r.route_type, Sum.inr r.distance_km]] }
    ∧ predict_singleT p r = (.ok v, [singleInputDF r])
    ∧ predict_emission p r
        = .ok { predicted_emission_kgco2e := round2 v
              , predicted_emission_tons := round4 (v / 1000)
              , input_data := r
              , model_version := API_VERSION } := by
  refine ⟨rfl, ?_, ?_⟩
  · simp [predict_singleT, hm, hv]
  · simp [predict_emission, predict_single, predict_singleT, hm, hv]

/-- Witness for C1: the worked example against the demo artifact —
350 km in, first predicted value 700 passed through with one artifact
invocation. -/
theorem predict_single_passthrough_witness :
    predict_singleT { model := some demoModel } demoReq
      = (.ok 700, [singleInputDF demoReq]) :=
  (predict_single_passthrough { model := some demoModel } demoModel demoReq
      700 [] rfl
      (by simp [demoModel, singleInputDF, demoReq, requestRow, demoRowFn]
          norm_num)).2.1

/-- C4: while `self.model is None` (no successful load yet), both
`predict_single` and `predict_batch` raise
`RuntimeError("Model not loaded")` and never return a numeric value. -/
theorem predict_before_load_fails
    (p : CarbonEmissionPredictor) (h : p.model = none)
    (r : PredictionRequest) (rs : List PredictionRequest) :
    predict_single p r = .error .modelNotLoaded
    ∧ predict_batch p rs = .error .modelNotLoaded
    ∧ (∀ v : ℚ, predict_single p r ≠ .ok v)
    ∧ (∀ l : List ℚ, predict_batch p rs ≠ .ok l) := by
  refine ⟨?_, ?_, ?_, ?_⟩ <;>
    simp [predict_single, predict_batch, predict_singleT, predict_batchT, h]

/-- Witness for C4: the never-loaded predictor on the worked example. -/
theorem predict_before_load_fails_witness :
    predict_single { model := none } demoReq = .error .modelNotLoaded :=
  (predict_before_load_fails { model := none } rfl demoReq []).1

/-- C7: when `joblib.load` fails, `load_model` leaves `self.model` as
`None` and raises `RuntimeError("Could not load model: ...")`; on the
resulting state `is_loaded` is `false` and `predict_single` fails with
the `ModelNotLoadedError` (`RuntimeError("Model not loaded")`) instead
of returning a value. -/
theorem load_failure_not_loaded
    (p : CarbonEmissionPredictor) (e : String) (h : p.model = none)
    (r : PredictionRequest) :
    (load_model p (.error e)).2 = .error ("Could not load model: " ++ e)
    ∧ is_loaded (load_model p (.error e)).1 = false
    ∧ predict_single (load_model p (.error e)).1 r = .error .modelNotLoaded
    ∧ (∀ v : ℚ, predict_single (load_model p (.error e)).1 r ≠ .ok v) := by
  refine ⟨?_, ?_, ?_, ?_⟩ <;>
    simp [load_model, is_loaded, predict_single, predict_singleT, h]

/-- Witness for C7: a failed load at a concrete bad path. -/
theorem load_failure_not_loaded_witness :
    is_loaded (load_model { model := none } (.error "bad path")).1 = false
    ∧ predict_single (load_model { model := none } (.error "bad path")).1 demoReq
        = .error .modelNotLoaded :=
  ⟨(load_failure_not_loaded { model := none } "bad path" rfl demoReq).2.1,
   (load_failure_not_loaded { model := none } "bad path" rfl demoReq).2.2.1⟩

/-- C10: `__init__` either produces an instance holding a loaded model
or propagates the load failure — every constructed instance has
`is_loaded` true and can never hit the `"Model not loaded"` branch of
`predict_single` / `predict_batch`. -/
theorem init_loaded_or_raises (lr : Except String Model) :
    (∀ p : CarbonEmissionPredictor, CarbonEmissionPredictor.init lr = .ok p →
        is_loaded p = true
        ∧ p.model ≠ none
        ∧ (∀ r, predict_single p r ≠ .error .modelNotLoaded)
        ∧ (∀ rs, predict_batch p rs ≠ .error .modelNotLoaded))
    ∧ (∀ e, lr = .error e →
        CarbonEmissionPredictor.init lr
          = .error ("Could not load model: " ++ e)) := by
  constructor
  · intro p hp
    cases lr with
    | error e => simp [CarbonEmissionPredictor.init, load_model] at hp
    | ok m =>
      simp [CarbonEmissionPredictor.init, load_model] at hp
      subst hp
      refine ⟨rfl, by simp, ?_, ?_⟩
      · intro r
        simp only [predict_single, predict_singleT]
        rcases hres : m (singleInputDF r) with msg | l
        · simp [hres]
        · cases l <;> simp [hres]
      · intro rs
        simp only [predict_batch, predict_batchT]
        rcases hres : m (batchInputDF rs) with msg | l <;> simp [hres]
  · intro e he
    subst he
    simp [CarbonEmissionPredictor.init, load_model]

/-- Witness for C10: a successful load yields a loaded instance; a
failed load propagates out of the constructor. -/
theorem init_loaded_or_raises_witness :
    is_loaded { model := some demoModel } = true
    ∧ CarbonEmissionPredictor.init (.error "bad path")
        = .error ("Could not load model: " ++ "bad path") :=
  ⟨((init_loaded_or_raises (.ok demoModel)).1 { model := some demoModel }
      rfl).1,
   (init_loaded_or_raises (.error "bad path")).2 "bad path" rfl⟩

/-- C8: the core returns the artifact value and its tons derivation
unrounded — `predict_single` yields exactly the artifact's value `v` —
and only the HTTP response applies presentation rounding, `round2` on
the kg figure and `round4` on the tons figure. -/
theorem rounding_only_at_boundary
    (p : CarbonEmissionPredictor) (m : Model) (r : PredictionRequest)
    (v : ℚ) (ks : List ℚ)
    (hm : p.model = some m)
    (hv : m (singleInputDF r) = .ok (v :: ks)) :
    predict_single p r = .ok v
    ∧ predict_emission p r
        = .ok { predicted_emission_kgco2e := round2 v
              , predicted_emission_tons := round4 (v / 1000)
              , input_data := r
              , model_version := API_VERSION } := by
  constructor
  · simp [predict_single, predict_singleT, hm, hv]
  · simp [predict_emission, predict_single, predict_singleT, hm, hv]

/-- Witness for C8 at a value the boundary genuinely rounds: the core
passes `45.6789` through untouched while the response carries
`45.68` and `0.0457`. -/
theorem rounding_only_at_boundary_witness :
    predict_single { model := some (fun _ => .ok [45.6789]) } demoReq
        = .ok 45.6789
    ∧ predict_emission { model := some (fun _ => .ok [45.6789]) } demoReq
        = .ok { predicted_emission_kgco2e := round2 45.6789
              , predicted_emission_tons := round4 (45.6789 / 1000)
              , input_data := demoReq
              , model_version := API_VERSION } :=
  rounding_only_at_boundary { model := some (fun _ => .ok [45.6789]) }
    (fun _ => .ok [45.6789]) demoReq 45.6789 [] rfl rfl

/-- The batch handler's running total over the zipped pairs equals the
sum of the predicted kg values. -/
theorem foldl_add_snd {α : Type} (l : List (α × ℚ)) (a : ℚ) :
    l.foldl (fun acc pr => acc + pr.2) a = a + (l.map Prod.snd).sum := by
  induction l generalizing a with
  | nil => simp
  | cons x xs ih => simp [ih, add_assoc]

/-- C2: with a loaded deterministic (row-wise) artifact, `predict_batch`
builds one multi-row frame whose rows are the requests in input order,
invokes the artifact exactly once for the whole batch (the invocation
trace is a single frame), and produces predictions in input order with
`predict_batch(D)` agreeing with `predict_single(D[i])` at every index. -/
theorem predict_batch_refines_single
    (p : CarbonEmissionPredictor) (m : Model) (f : List Cell → ℚ)
    (reqs : List PredictionRequest)
    (hm : p.model = some m) (hf : RowwiseModel m f) (hne : reqs ≠ []) :
    ∃ out : List ℚ,
      predict_batchT p reqs = (.ok out, [batchInputDF reqs])
      ∧ (batchInputDF reqs).rows = reqs.map requestRow
      ∧ out.length = reqs.length
      ∧ ∀ i (hi : i < reqs.length) (ho : i < out.length),
          predict_single p (reqs.get ⟨i, hi⟩) = .ok (out.get ⟨i, ho⟩) := by
  have hcols : (batchInputDF reqs).columns = columnOrder := by
    cases reqs with
    | nil => exact absurd rfl hne
    | cons a as => rfl
  have hb := hf (batchInputDF reqs) hcols
  refine ⟨reqs.map (fun r => f (requestRow r)), ?_, rfl, by simp, ?_⟩
  · simp only [predict_batchT, hm, hb]
    simp [batchInputDF, List.map_map, Function.comp]
  · intro i hi ho
    have hs := hf (singleInputDF (reqs.get ⟨i, hi⟩)) rfl
    simp only [List.get_eq_getElem] at hs ⊢
    simp only [singleInputDF, List.map_cons, List.map_nil] at hs
    simp [predict_single, predict_singleT, hm, singleInputDF, hs]

/-- Witness for C2: a two-request batch against the demo artifact is one
artifact invocation producing `[700, 24]`, and each per-index value
matches the corresponding single prediction. -/
theorem predict_batch_refines_single_witness :
    ∃ out : List ℚ,
      predict_batchT { model := some demoModel }
          [demoReq, { origin_facility := "WH_Delhi", vehicle_type := "van"
                    , route_type := "urban", distance_km := 12 }]
        = (.ok out,
           [batchInputDF
              [demoReq, { origin_facility := "WH_Delhi"
                        , vehicle_type := "van"
                        , route_type := "urban", distance_km := 12 }]])
      ∧ (batchInputDF
            [demoReq, { origin_facility := "WH_Delhi", vehicle_type := "van"
                      , route_type := "urban", distance_km := 12 }]).rows
          = [demoReq, { origin_facility := "WH_Delhi", vehicle_type := "van"
                      , route_type := "urban"
                      , distance_km := 12 }].map requestRow
      ∧ out.length = 2
      ∧ ∀ i (hi : i < ([demoReq,
            { origin_facility := "WH_Delhi", vehicle_type := "van"
            , route_type := "urban"
            , distance_km := 12 }] : List PredictionRequest).length)
          (ho : i < out.length),
          predict_single { model := some demoModel }
              (([demoReq, { origin_facility := "WH_Delhi"
                          , vehicle_type := "van", route_type := "urban"
                          , distance_km := 12 }]
                : List PredictionRequest).get ⟨i, hi⟩)
            = .ok (out.get ⟨i, ho⟩) :=
  predict_batch_refines_single { model := some demoModel } demoModel demoRowFn
    [demoReq, { origin_facility := "WH_Delhi", vehicle_type := "van"
              , route_type := "urban", distance_km := 12 }]
    rfl (fun df _ => rfl) (by simp)

/-- C3 counterexample: at the spec's own scenario — three requests with
kg results `[10.0, 20.5, 5.25]` — the batch response carries
`total_emission_kgco2e = 35.75` but `total_emission_tons = 0.0358`
(the handler rounds `35.75 / 1000` to 4 decimals, and `357.5` rounds
half-to-even up to `358`), so the response's tons total is neither
`total_emission_kg / 1000 = 0.03575` nor the claim's scenario value
`0.03575`. -/
theorem batch_total_tons_counterexample :
    (predict_emissions_batch
        { model := some (fun _ => .ok [10, 20.5, 5.25]) }
        [demoReq, demoReq, demoReq]).map
        (fun resp => (resp.total_emission_kgco2e, resp.total_emission_tons))
      = .ok (35.75, 0.0358)
    ∧ (0.0358 : ℚ) ≠ 35.75 / 1000
    ∧ (0.0358 : ℚ) ≠ 0.03575 := by
  refine ⟨?_, by norm_num, by norm_num⟩
  have h : predict_batchT { model := some (fun _ => .ok [10, 20.5, 5.25]) }
      [demoReq, demoReq, demoReq]
      = (.ok [10, 20.5, 5.25], [batchInputDF [demoReq, demoReq, demoReq]]) :=
    rfl
  simp [predict_emissions_batch, predict_emissions_batchT, h, Except.map]
  norm_num [round2, round4, roundHalfEven]

/-- C3 (amended): when the artifact returns one kg value per request,
the batch response is aligned 1:1 with the input order
(`results[i].input_data` echoes `descriptors[i]`), `total_count` is the
length of the results, `total_emission_kgco2e` is the sum of the
individual kg values rounded to 2 decimals for presentation, and
`total_emission_tons` is that same kg sum divided by 1000 and rounded
to 4 decimals — derived from the kg total, not from summing per-item
tons. -/
theorem batch_response_aggregation
    (p : CarbonEmissionPredictor) (m : Model)
    (reqs : List PredictionRequest) (ks : List ℚ)
    (hm : p.model = some m)
    (hk : m (batchInputDF reqs) = .ok ks)
    (hlen : ks.length = reqs.length) :
    ∃ resp : BatchPredictionResponse,
      predict_emissions_batch p reqs = .ok resp
      ∧ resp.results.map PredictionResponse.input_data = reqs
      ∧ resp.results.length = reqs.length
      ∧ resp.total_count = reqs.length
      ∧ resp.total_emission_kgco2e = round2 ks.sum
      ∧ resp.total_emission_tons = round4 (ks.sum / 1000)
      ∧ ∀ i (hi : i < resp.results.length) (hj : i < reqs.length),
          (resp.results.get ⟨i, hi⟩).input_data = reqs.get ⟨i, hj⟩ := by
  have hbt : predict_batchT p reqs = (.ok ks, [batchInputDF reqs]) := by
    simp [predict_batchT, hm, hk]
  have hfst : (reqs.zip ks).map Prod.fst = reqs :=
    List.map_fst_zip reqs ks (le_of_eq hlen.symm)
  have hsnd : (reqs.zip ks).map Prod.snd = ks :=
    List.map_snd_zip reqs ks (le_of_eq hlen)
  have hzlen : (reqs.zip ks).length = reqs.length := by
    simp [List.length_zip, hlen]
  have hfst2 : (reqs.zip ks).map (fun pr => pr.1) = reqs := hfst
  have hsnd2 : (reqs.zip ks).map (fun pr => pr.2) = ks := hsnd
  refine ⟨{ results := (reqs.zip ks).map fun pr =>
              { predicted_emission_kgco2e := round2 pr.2
              , predicted_emission_tons := round4 (pr.2 / 1000)
              , input_data := pr.1
              , model_version := API_VERSION }
          , total_count := ((reqs.zip ks).map fun pr =>
              ({ predicted_emission_kgco2e := round2 pr.2
               , predicted_emission_tons := round4 (pr.2 / 1000)
               , input_data := pr.1
               , model_version := API_VERSION } : PredictionResponse)).length
          , total_emission_kgco2e :=
              round2 ((reqs.zip ks).foldl (fun acc pr => acc + pr.2) 0)
          , total_emission_tons :=
              round4 ((reqs.zip ks).foldl (fun acc pr => acc + pr.2) 0 / 1000) },
    ?_, ?_, ?_, ?_, ?_, ?_, ?_⟩
  · simp only [predict_emissions_batch, predict_emissions_batchT, hbt]
  · simp only [List.map_map]
    have : (PredictionResponse.input_data ∘ fun pr : PredictionRequest × ℚ =>
        ({ predicted_emission_kgco2e := round2 pr.2
         , predicted_emission_tons := round4 (pr.2 / 1000)
         , input_data := pr.1
         , model_version := API_VERSION } : PredictionResponse))
        = fun pr : PredictionRequest × ℚ => pr.1 := funext fun _ => rfl
    rw [this, hfst2]
  · simp [hzlen]
  · simp [hzlen]
  · rw [foldl_add_snd, hsnd, zero_add]
  · rw [foldl_add_snd, hsnd, zero_add]
  · intro i hi hj
    simp [List.get_eq_getElem, List.getElem_map, List.getElem_zip]

/-- Witness for the amended C3: the spec's scenario — three requests
with kg results `[10.0, 20.5, 5.25]` give a kg total of `35.75`
(unchanged by `round2`), a tons total `round4 (35.75 / 1000) = 0.0358`
derived from the kg sum, a count of 3, and input echoes in order. -/
theorem batch_response_aggregation_witness :
    (((10 : ℚ) :: 20.5 :: 5.25 :: []).sum = 35.75
      ∧ round2 (35.75 : ℚ) = 35.75
      ∧ round4 ((35.75 : ℚ) / 1000) = 0.0358)
    ∧ ∃ resp : BatchPredictionResponse,
      predict_emissions_batch
          { model := some (fun _ => .ok [10, 20.5, 5.25]) }
          [demoReq, demoReq, demoReq]
        = .ok resp
      ∧ resp.results.map PredictionResponse.input_data
          = [demoReq, demoReq, demoReq]
      ∧ resp.results.length = 3
      ∧ resp.total_count = 3
      ∧ resp.total_emission_kgco2e = round2 (((10 : ℚ) :: 20.5 :: 5.25 :: []).sum)
      ∧ resp.total_emission_tons = round4 (((10 : ℚ) :: 20.5 :: 5.25 :: []).sum / 1000)
      ∧ ∀ i (hi : i < resp.results.length) (hj : i < 3),
          (resp.results.get ⟨i, hi⟩).input_data
            = (([demoReq, demoReq, demoReq] : List PredictionRequest).get
                ⟨i, hj⟩) :=
  ⟨⟨by norm_num, by norm_num [round2, roundHalfEven],
    by norm_num [round4, roundHalfEven]⟩,
   batch_response_aggregation
     { model := some (fun _ => .ok [10, 20.5, 5.25]) }
     (fun _ => .ok [10, 20.5, 5.25])
     [demoReq, demoReq, demoReq] [10, 20.5, 5.25] rfl rfl (by simp)⟩

/-- C5 counterexample: the boundary accepts a request whose
`vehicle_type` is all whitespace — `vehicle_type` and `route_type` carry
no `min_length` constraint and the validators only strip — so the
accepted request's `vehicle_type` is empty after trimming,
contradicting the claim that every accepted request has all three
strings non-empty after trimming. -/
theorem boundary_trim_counterexample :
    mkPredictionRequest "WH_Bangalore" " " "highway" 350
      = some { origin_facility := "WH_Bangalore", vehicle_type := ""
             , route_type := "highway", distance_km := 350 } := by
  have hc : 1 ≤ ("WH_Bangalore".length) ∧ 0 < (350 : ℚ) := by
    constructor
    · decide
    · norm_num
  simp only [mkPredictionRequest, if_pos hc]
  refine congrArg some ?_
  have h1 : strip "WH_Bangalore" = "WH_Bangalore" := by decide
  have h2 : strip " " = "" := by decide
  have h3 : strip "highway" = "highway" := by decide
  simp [h1, h2, h3]

/-- C5 (amended): every request accepted by the boundary has
`distance_km` strictly positive and a raw `origin_facility` of length at
least 1, and its string fields are the stripped raw inputs — but a field
may be empty after trimming; any request with non-positive `distance_km`
or an empty raw `origin_facility` is rejected before reaching the
core. -/
theorem boundary_validation_amended (o v r : String) (d : ℚ) :
    (∀ req : PredictionRequest, mkPredictionRequest o v r d = some req →
        0 < req.distance_km ∧ 1 ≤ o.length
        ∧ req.origin_facility = strip o ∧ req.vehicle_type = strip v
        ∧ req.route_type = strip r ∧ req.distance_km = d)
    ∧ (d ≤ 0 ∨ o.length = 0 → mkPredictionRequest o v r d = none) := by
  constructor
  · intro req h
    by_cases hc : 1 ≤ o.length ∧ 0 < d
    · simp only [mkPredictionRequest, if_pos hc, Option.some.injEq] at h
      subst h
      exact ⟨hc.2, hc.1, rfl, rfl, rfl, rfl⟩
    · simp [mkPredictionRequest, if_neg hc] at h
  · intro hor
    have hc : ¬(1 ≤ o.length ∧ 0 < d) := by
      rcases hor with h | h
      · rintro ⟨_, hd⟩
        exact absurd hd (not_lt.mpr h)
      · rintro ⟨ho, _⟩
        omega
    simp [mkPredictionRequest, if_neg hc]

/-- Witness for the amended C5: a non-positive distance is rejected at
the boundary. -/
theorem boundary_validation_amended_witness :
    mkPredictionRequest "WH_Bangalore" "truck" "highway" 0 = none :=
  (boundary_validation_amended "WH_Bangalore" "truck" "highway" 0).2
    (Or.inl (by norm_num))

/-- C6 counterexample: when the artifact raises with message `"boom"`,
the HTTP 500 detail is `"Prediction failed: boom"` — the artifact's
failure message is included verbatim in the response to the caller,
contradicting the claim that it is logged server-side only and never
leaked. -/
theorem error_detail_counterexample :
    predict_emission { model := some boomModel } demoReq
      = .error (.serverError ("Prediction failed: " ++ "boom")) := by
  simp [predict_emission, predict_single, predict_singleT, boomModel,
    PredictorError.message]

/-- C6 (amended): an artifact failure is surfaced as a server error
(HTTP 500) whose detail is the fixed prefix `"Prediction failed: "`
(`"Batch prediction failed: "` on the batch route) followed by the
artifact exception's own message — the detailed cause is included in
the caller-visible detail (it is also logged server-side). -/
theorem prediction_failure_surfacing
    (p : CarbonEmissionPredictor) (m : Model) (hm : p.model = some m) :
    (∀ r msg, m (singleInputDF r) = .error msg →
        predict_emission p r
          = .error (.serverError ("Prediction failed: " ++ msg)))
    ∧ (∀ rs msg, m (batchInputDF rs) = .error msg →
        predict_emissions_batch p rs
          = .error (.serverError ("Batch prediction failed: " ++ msg))) := by
  constructor
  · intro r msg h
    simp [predict_emission, predict_single, predict_singleT, hm, h,
      PredictorError.message]
  · intro rs msg h
    simp [predict_emissions_batch, predict_emissions_batchT,
      predict_batchT, hm, h, PredictorError.message]

/-- Witness for the amended C6 on the batch route with the raising
artifact. -/
theorem prediction_failure_surfacing_witness :
    predict_emissions_batch { model := some boomModel } [demoReq]
      = .error (.serverError ("Batch prediction failed: " ++ "boom")) :=
  (prediction_failure_surfacing { model := some boomModel } boomModel
      rfl).2 [demoReq] "boom" rfl

/-- C9: the `/predict/batch` boundary accepts only 1 to 100 requests —
an empty or over-100 batch is rejected as a client error with an empty
artifact-invocation trace (the handler, and hence `predict_batch`, is
never reached), while an in-range batch is passed through to the
handler unchanged. -/
theorem batch_bounds_enforced (p : CarbonEmissionPredictor)
    (raw : List PredictionRequest) :
    (raw.length = 0 ∨ 100 < raw.length →
        handle_predict_batchT p raw
          = (.error (.clientError "request validation failed"), []))
    ∧ (1 ≤ raw.length → raw.length ≤ 100 →
        handle_predict_batchT p raw = predict_emissions_batchT p raw) := by
  constructor
  · intro h
    have hc : ¬(1 ≤ raw.length ∧ raw.length ≤ 100) := by
      rcases h with h | h <;> omega
    simp [handle_predict_batchT, mkBatchPredictionRequest, if_neg hc]
  · intro h1 h2
    have hc : 1 ≤ raw.length ∧ raw.length ≤ 100 := ⟨h1, h2⟩
    simp [handle_predict_batchT, mkBatchPredictionRequest, if_pos hc]

/-- Witness for C9: the empty batch is rejected with no artifact
invocation even though the artifact is loaded. -/
theorem batch_bounds_enforced_witness :
    handle_predict_batchT { model := some demoModel } []
      = (.error (.clientError "request validation failed"), []) :=
  (batch_bounds_enforced { model := some demoModel } []).1 (Or.inl rfl)

end CarbonLens
